import Mathlib

/-!
Shallow embedding of `solvedac_server.py` from Kyungbaee/MCPforSolvedAC.

Embedding conventions:

* JSON bodies decoded by `resp.json()` are modelled by the inductive `Json`
  (the endpoints used here carry only integral numbers, strings, booleans,
  nulls, arrays and objects).
* The httpx client is modelled as a deterministic transport function
  `HttpRequest → HttpOutcome`; the module-level state dictionary holding
  `http_client` (populated by `lifespan`, `None` outside the activation
  window) becomes `ServerState` with an `Option Transport` slot.
* `resp.raise_for_status()` raises `httpx.HTTPStatusError` exactly for
  non-2xx statuses, so the success path requires `200 ≤ s ∧ s < 300`.
* Python exceptions are mapped to the failure taxonomy of the spec:
  `RuntimeError("HTTP Client is not available.")` is `ClientUnavailable`;
  the `ValueError` raised on 404 in `get_user_info_core` is `NotFound`;
  the `RuntimeError`s raised on 429 / 5xx are `RateLimited` /
  `RemoteUnavailable`; the bare `raise` that re-raises the status exception
  for any other status is `UnexpectedStatus` carrying the original status;
  the `RuntimeError` wrapping `httpx.RequestError` is `NetworkError`; a
  pydantic validation error from `model_validate` (not caught by any
  `except` clause, hence propagated) is `InvalidResponseShape`; the pydantic
  `ge=1` rejection of a tool or resource argument is `InvalidArgument`.
* Each operation also reports the list of HTTP requests it issued, so that
  "no network call is attempted" is the statement that this list is empty.
* `pydantic.BaseModel.model_validate` with `extra="ignore"` is modelled by
  field lookups on the JSON object: required fields must be present and pass
  the lax validation of their declared type, `Optional` fields default to
  `none` when absent or null, and any other field of the object is simply
  never read. pydantic v2 runs in lax (non-strict) mode here, so an `int`
  field also accepts a numeric string ("15" is coerced to 15) and a `bool`
  field also accepts 0, 1 and the documented keyword strings. The model
  covers the exact coercion paths: `laxInt` accepts a JSON number or a
  whitespace-trimmed optionally-signed decimal-digit string, and `laxBool`
  accepts a JSON boolean, 0, 1, or a keyword string. pydantic-core
  additionally routes some extended numeric-string forms (underscore
  grouping, trailing zero fractions, scientific notation) through an
  IEEE-754 float fallback; those strings — which all contain a decimal
  digit — are outside the modelled fragment, and no theorem below
  quantifies over them: the certain-rejection predicates used for the
  schema-failure statements reject a string only when it contains no
  decimal digit at all, which no coercion path of pydantic can accept.
-/

namespace SolvedAc

/-- JSON values as decoded from a response body. -/
inductive Json where
  | null : Json
  | bool (b : Bool) : Json
  | num (n : Int) : Json
  | str (s : String) : Json
  | arr (elems : List Json) : Json
  | obj (fields : List (String × Json)) : Json

/-- Field lookup on a JSON object (first binding wins); `none` on non-objects. -/
def Json.getField : Json → String → Option Json
  | .obj fields, k => fields.lookup k
  | _, _ => none

/-- `class UserShowResponse(BaseModel)`: handle, tier, rating, solvedCount. -/
structure UserShowResponse where
  handle : String
  tier : Int
  rating : Int
  solvedCount : Int
deriving DecidableEq

/-- `class Problem(BaseModel)`: problemId, titleKo (optional), level, isSolvable. -/
structure Problem where
  problemId : Int
  titleKo : Option String
  level : Int
  isSolvable : Bool
deriving DecidableEq

/-- `class ProblemSearchResponse(BaseModel)`: count, items. -/
structure ProblemSearchResponse where
  count : Int
  items : List Problem
deriving DecidableEq

/-- The failure kinds of the spec taxonomy (section 7). `UnexpectedStatus`
carries the original HTTP status, as the re-raised status exception does. -/
inductive FailureKind where
  | InvalidArgument : FailureKind
  | ClientUnavailable : FailureKind
  | InvalidResponseShape : FailureKind
  | NotFound : FailureKind
  | RateLimited : FailureKind
  | RemoteUnavailable : FailureKind
  | UnexpectedStatus (status : Nat) : FailureKind
  | NetworkError : FailureKind
deriving DecidableEq

/-- A capability-level failure: a kind plus the raised exception message. -/
structure Failure where
  kind : FailureKind
  message : String
deriving DecidableEq

/-- One outbound HTTP GET: path and query parameters, as passed to
`client.get(path, params=...)`. -/
structure HttpRequest where
  path : String
  params : List (String × String)
deriving DecidableEq

/-- What the transport yields for a request: a status plus decoded JSON body,
or a transport-level fault (`httpx.RequestError`). -/
inductive HttpOutcome where
  | response (status : Nat) (body : Json) : HttpOutcome
  | transportError (message : String) : HttpOutcome

/-- The shared httpx client, abstracted to its request/response behaviour. -/
def Transport : Type := HttpRequest → HttpOutcome

/-- The module state dictionary: the `http_client` slot is `None` outside the
`lifespan` activation window. -/
structure ServerState where
  http_client : Option Transport

/-- Result of running an operation: its outcome together with the HTTP
requests it issued (empty means no network call was attempted). -/
structure OpResult (α : Type) where
  result : Except Failure α
  requests : List HttpRequest

/-- Leading and trailing whitespace removal, as pydantic-core trims a
numeric string before parsing it. -/
def trimAsciiWs (cs : List Char) : List Char :=
  ((cs.dropWhile Char.isWhitespace).reverse.dropWhile Char.isWhitespace).reverse

/-- Decimal value of a nonempty all-digit character run; `none` otherwise. -/
def digitsVal (cs : List Char) : Option Nat :=
  if cs ≠ [] ∧ cs.all Char.isDigit = true then
    some (cs.foldl (fun a c => a * 10 + (c.toNat - 48)) 0)
  else none

/-- pydantic-core lax string-to-int parsing, on its exact decimal path: the
trimmed string is an optionally-signed nonempty digit run. The extended
forms pydantic-core additionally accepts (underscore grouping, trailing
zero fractions, scientific notation via the float fallback) are outside the
modelled fragment; every such string contains a digit, so the
certain-rejection predicate below never classifies one as rejected. -/
def strToInt (s : String) : Option Int :=
  match trimAsciiWs s.data with
  | [] => none
  | c :: rest =>
      if c = '+' then (digitsVal rest).map (fun n => (n : Int))
      else if c = '-' then (digitsVal rest).map (fun n => -(n : Int))
      else (digitsVal (c :: rest)).map (fun n => (n : Int))

/-- pydantic-core lax string-to-bool parsing: the documented keyword
strings, case-insensitively. -/
def strToBool (s : String) : Option Bool :=
  let t := s.toLower
  if t = "true" ∨ t = "t" ∨ t = "yes" ∨ t = "y" ∨ t = "on" ∨ t = "1" then
    some true
  else if t = "false" ∨ t = "f" ∨ t = "no" ∨ t = "n" ∨ t = "off" ∨ t = "0" then
    some false
  else none

/-- Lax validation of a required `str` field against a looked-up JSON
value: pydantic v2 accepts exactly strings here (no number-to-string
coercion exists in lax mode). -/
def laxStr : Option Json → Option String
  | some (.str s) => some s
  | _ => none

/-- Lax validation of a required `int` field: a JSON number, or a numeric
string coerced by `strToInt`. Null, booleans, arrays and objects are
rejected (pydantic v2 rejects bool for int). -/
def laxInt : Option Json → Option Int
  | some (.num n) => some n
  | some (.str s) => strToInt s
  | _ => none

/-- Lax validation of a required `bool` field: a JSON boolean, the numbers
0 and 1, or a keyword string coerced by `strToBool`. -/
def laxBool : Option Json → Option Bool
  | some (.bool b) => some b
  | some (.num n) => if n = 0 then some false else if n = 1 then some true else none
  | some (.str s) => strToBool s
  | _ => none

/-- Values a required `str` field certainly fails on, whatever coercion
pydantic applies: the field absent, or present with any non-string JSON
value. -/
def strFieldRejected : Option Json → Bool
  | some (.str _) => false
  | _ => true

/-- Values a required `int` field certainly fails on: the field absent;
null, a boolean, an array or an object; or a string containing no decimal
digit at all, which no numeric coercion path of pydantic can parse. -/
def intFieldRejected : Option Json → Bool
  | some (.num _) => false
  | some (.str s) => !(s.data.any Char.isDigit)
  | _ => true

/-- `UserShowResponse.model_validate`: the four required fields must be
present and pass the lax validation of their declared types; every other
field of the object is ignored (`extra="ignore"`). -/
def validateUserShow (j : Json) : Except Failure UserShowResponse :=
  match laxStr (j.getField "handle"), laxInt (j.getField "tier"),
      laxInt (j.getField "rating"), laxInt (j.getField "solvedCount") with
  | some h, some t, some r, some sc =>
      .ok ⟨h, t, r, sc⟩
  | _, _, _, _ =>
      .error ⟨.InvalidResponseShape, "validation error for UserShowResponse"⟩

/-- `titleKo: Optional[str] = None`: absent or null yields `none`, a string
yields `some`, any other shape is a validation error. -/
def validateTitleKo (j : Json) : Except Failure (Option String) :=
  match j.getField "titleKo" with
  | none => .ok none
  | some .null => .ok none
  | some (.str s) => .ok (some s)
  | some _ => .error ⟨.InvalidResponseShape, "validation error for Problem"⟩

/-- `Problem.model_validate`: problemId, level, isSolvable required and
validated laxly against their declared types, titleKo optional, extra
fields ignored. -/
def validateProblem (j : Json) : Except Failure Problem :=
  match laxInt (j.getField "problemId"), laxInt (j.getField "level"),
      laxBool (j.getField "isSolvable") with
  | some pid, some lv, some sv =>
      match validateTitleKo j with
      | .ok t => .ok ⟨pid, t, lv, sv⟩
      | .error e => .error e
  | _, _, _ => .error ⟨.InvalidResponseShape, "validation error for Problem"⟩

/-- Element-wise validation of `items: List[Problem]`, in order. -/
def validateProblems : List Json → Except Failure (List Problem)
  | [] => .ok []
  | j :: js =>
      match validateProblem j, validateProblems js with
      | .ok p, .ok ps => .ok (p :: ps)
      | .error e, _ => .error e
      | .ok _, .error e => .error e

/-- `ProblemSearchResponse.model_validate`: count (laxly validated int) and
items (a JSON array) required, items validated element-wise in order, extra
fields ignored. -/
def validateProblemSearch (j : Json) : Except Failure ProblemSearchResponse :=
  match laxInt (j.getField "count"), j.getField "items" with
  | some c, some (.arr js) =>
      match validateProblems js with
      | .ok ps => .ok ⟨c, ps⟩
      | .error e => .error e
  | _, _ =>
      .error ⟨.InvalidResponseShape, "validation error for ProblemSearchResponse"⟩

/-- The GET issued by `get_user_info_core`:
`client.get("/user/show", params=...)` with the handle as query parameter. -/
def userShowRequest (handle : String) : HttpRequest :=
  ⟨"/user/show", [("handle", handle)]⟩

/-- The GET issued by `search_problems_core`:
`client.get("/search/problem", params=...)` with query and page (page
rendered in decimal, as httpx renders an int parameter). -/
def searchProblemRequest (query : String) (page : Int) : HttpRequest :=
  ⟨"/search/problem", [("query", query), ("page", toString page)]⟩

/-- `get_user_info_core(handle)`: precondition check on the client slot, one
GET, `raise_for_status`, pydantic validation, and the except-clause
translation (404 → NotFound naming the handle, 429 → RateLimited,
5xx → RemoteUnavailable, other statuses re-raised as UnexpectedStatus,
transport faults wrapped as NetworkError). -/
def get_user_info_core (st : ServerState) (handle : String) :
    OpResult UserShowResponse :=
  match st.http_client with
  | none => ⟨.error ⟨.ClientUnavailable, "HTTP Client is not available."⟩, []⟩
  | some client =>
      match client (userShowRequest handle) with
      | .transportError m =>
          ⟨.error ⟨.NetworkError,
              "네트워크 오류로 사용자 정보를 가져오지 못했습니다: " ++ m⟩,
            [userShowRequest handle]⟩
      | .response s body =>
          if 200 ≤ s ∧ s < 300 then
            match validateUserShow body with
            | .ok u => ⟨.ok u, [userShowRequest handle]⟩
            | .error e => ⟨.error e, [userShowRequest handle]⟩
          else if s = 404 then
            ⟨.error ⟨.NotFound,
                "사용자 핸들 \x27" ++ handle ++ "\x27을(를) 찾을 수 없습니다."⟩,
              [userShowRequest handle]⟩
          else if s = 429 then
            ⟨.error ⟨.RateLimited, "요청이 많습니다(429). 잠시 후 다시 시도하세요."⟩,
              [userShowRequest handle]⟩
          else if 500 ≤ s ∧ s < 600 then
            ⟨.error ⟨.RemoteUnavailable,
                "solved.ac 서버 오류가 발생했습니다. 잠시 후 다시 시도하세요."⟩,
              [userShowRequest handle]⟩
          else
            ⟨.error ⟨.UnexpectedStatus s, "HTTP status error " ++ toString s⟩,
              [userShowRequest handle]⟩

/-- `search_problems_core(query, page)`: same structure as the user lookup
but without the 404 special case. -/
def search_problems_core (st : ServerState) (query : String) (page : Int) :
    OpResult ProblemSearchResponse :=
  match st.http_client with
  | none => ⟨.error ⟨.ClientUnavailable, "HTTP Client is not available."⟩, []⟩
  | some client =>
      match client (searchProblemRequest query page) with
      | .transportError m =>
          ⟨.error ⟨.NetworkError, "네트워크 오류로 문제 검색에 실패했습니다: " ++ m⟩,
            [searchProblemRequest query page]⟩
      | .response s body =>
          if 200 ≤ s ∧ s < 300 then
            match validateProblemSearch body with
            | .ok r => ⟨.ok r, [searchProblemRequest query page]⟩
            | .error e => ⟨.error e, [searchProblemRequest query page]⟩
          else if s = 429 then
            ⟨.error ⟨.RateLimited, "요청이 많습니다(429). 잠시 후 다시 시도하세요."⟩,
              [searchProblemRequest query page]⟩
          else if 500 ≤ s ∧ s < 600 then
            ⟨.error ⟨.RemoteUnavailable,
                "solved.ac 서버 오류가 발생했습니다. 잠시 후 다시 시도하세요."⟩,
              [searchProblemRequest query page]⟩
          else
            ⟨.error ⟨.UnexpectedStatus s, "HTTP status error " ++ toString s⟩,
              [searchProblemRequest query page]⟩

/-- A prompt message: role string and text content, as in
`PromptMessage(role=..., content=TextContent(type="text", text=...))`. -/
structure TextContent where
  type : String
  text : String
deriving DecidableEq

/-- A message of the prompt sequence. -/
structure PromptMessage where
  role : String
  content : TextContent
deriving DecidableEq

/-- `search_workflow_prompt_core(natural_request, page)`: the direct-callable
prompt builder, returning the fixed assistant-role instruction followed by a
user-role message interpolating the request and the page. -/
def search_workflow_prompt_core (natural_request : String) (page : Int) :
    List PromptMessage :=
  let sys : PromptMessage :=
    ⟨"assistant",
      ⟨"text",
        "You are a Solved.ac search assistant.\n" ++
        "1) Convert the user\x27s request into a precise Solved.ac query string " ++
        "(e.g., `tier:g5..p5 tag:dfs -tag:greedy`).\n" ++
        "2) Do NOT browse the web.\n" ++
        "3) Call the MCP TOOL `solvedac_search_problems` with \x7bquery, page\x7d.\n" ++
        "4) Rank top 5 by suitability and show: problemId, titleKo, level."⟩⟩
  let usr : PromptMessage :=
    ⟨"user",
      ⟨"text",
        "요청(자연어): " ++ natural_request ++
        "\n페이지: " ++ toString page ++
        "\n규칙: 쿼리를 먼저 제시하고, 이어서 리소스를 호출해 결과를 평가하세요."⟩⟩
  [sys, usr]

/-- `search_workflow_prompt(natural_request, page)`: the protocol-registered
prompt handler, whose body is a verbatim duplicate of the core builder. -/
def search_workflow_prompt (natural_request : String) (page : Int) :
    List PromptMessage :=
  let sys : PromptMessage :=
    ⟨"assistant",
      ⟨"text",
        "You are a Solved.ac search assistant.\n" ++
        "1) Convert the user\x27s request into a precise Solved.ac query string " ++
        "(e.g., `tier:g5..p5 tag:dfs -tag:greedy`).\n" ++
        "2) Do NOT browse the web.\n" ++
        "3) Call the MCP TOOL `solvedac_search_problems` with \x7bquery, page\x7d.\n" ++
        "4) Rank top 5 by suitability and show: problemId, titleKo, level."⟩⟩
  let usr : PromptMessage :=
    ⟨"user",
      ⟨"text",
        "요청(자연어): " ++ natural_request ++
        "\n페이지: " ++ toString page ++
        "\n규칙: 쿼리를 먼저 제시하고, 이어서 리소스를 호출해 결과를 평가하세요."⟩⟩
  [sys, usr]

/-- `get_user_info_tool(handle)`: the tool binding delegates to the core. -/
def get_user_info_tool (st : ServerState) (handle : String) :
    OpResult UserShowResponse :=
  get_user_info_core st handle

/-- `search_problems_tool(query, page)`: the tool binding. Its `page`
parameter is declared `Field(1, ge=1)`; the protocol layer validates the
arguments against this schema before the handler body runs, so `page < 1`
is rejected locally (the pydantic ge-message) and the body — hence the
network — is never reached. -/
def search_problems_tool (st : ServerState) (query : String) (page : Int) :
    OpResult ProblemSearchResponse :=
  if page < 1 then
    ⟨.error ⟨.InvalidArgument, "Input should be greater than or equal to 1"⟩, []⟩
  else
    search_problems_core st query page

/-- `get_user_info(handle)`: the resource binding delegates to the core. -/
def get_user_info (st : ServerState) (handle : String) :
    OpResult UserShowResponse :=
  get_user_info_core st handle

/-- `search_problems(query, page, stub)`: the resource binding. `page` again
carries `Field(1, ge=1)` (validated by the protocol layer before the body
runs); `stub` is the dummy path segment, unused by the body, which delegates
to `search_problems_core(query=query, page=page)`. -/
def search_problems (st : ServerState) (query : String) (page : Int)
    (stub : String) : OpResult ProblemSearchResponse :=
  if page < 1 then
    ⟨.error ⟨.InvalidArgument, "Input should be greater than or equal to 1"⟩, []⟩
  else
    search_problems_core st query page

/-- A well-formed user body with an extra, unrecognized field. -/
def userOkBody : Json :=
  .obj [("handle", .str "kyungbaee"), ("tier", .num 15),
        ("rating", .num 1500), ("solvedCount", .num 200),
        ("profileImageUrl", .str "https://static.solved.ac/x.png")]

/-- A malformed user body: `tier` has the wrong shape and the other
required fields besides `handle` are absent. -/
def userBadBody : Json :=
  .obj [("handle", .str "kyungbaee"), ("tier", .str "gold")]

/-- A well-formed search item. -/
def searchItem1 : Json :=
  .obj [("problemId", .num 1000), ("titleKo", .str "A+B"),
        ("level", .num 1), ("isSolvable", .bool true)]

/-- A well-formed search item with a null optional title. -/
def searchItem2 : Json :=
  .obj [("problemId", .num 2557), ("titleKo", .null),
        ("level", .num 1), ("isSolvable", .bool false)]

/-- A well-formed search body with two items. -/
def searchOkBody : Json :=
  .obj [("count", .num 2), ("items", .arr [searchItem1, searchItem2])]

/-- A successful digit-run parse requires a digit character in the run. -/
theorem digitsVal_some_has_digit (cs : List Char) (n : Nat)
    (hdv : digitsVal cs = some n) : ∃ c ∈ cs, c.isDigit = true := by
  unfold digitsVal at hdv
  split at hdv
  · rename_i hc
    obtain ⟨hne, hall⟩ := hc
    cases cs with
    | nil => exact absurd rfl hne
    | cons c cs =>
        exact ⟨c, List.mem_cons_self c cs,
          List.all_eq_true.mp hall c (List.mem_cons_self c cs)⟩
  · cases hdv

/-- Trimming only removes characters. -/
theorem mem_trimAsciiWs (cs : List Char) (c : Char)
    (h : c ∈ trimAsciiWs cs) : c ∈ cs := by
  unfold trimAsciiWs at h
  rw [List.mem_reverse] at h
  have h1 := (List.dropWhile_sublist _).subset h
  rw [List.mem_reverse] at h1
  exact (List.dropWhile_sublist _).subset h1

/-- A successfully parsed numeric string contains a digit character. -/
theorem strToInt_some_has_digit (s : String) (n : Int)
    (h : strToInt s = some n) : ∃ c ∈ s.data, c.isDigit = true := by
  unfold strToInt at h
  cases htrim : trimAsciiWs s.data with
  | nil => rw [htrim] at h; cases h
  | cons c rest =>
      simp only [htrim] at h
      have hmem : ∀ x ∈ c :: rest, x ∈ s.data := fun x hx =>
        mem_trimAsciiWs s.data x (htrim ▸ hx)
      by_cases hplus : c = '+'
      · rw [if_pos hplus] at h
        cases hdv : digitsVal rest with
        | none => rw [hdv] at h; cases h
        | some m =>
            obtain ⟨d, hd, hdig⟩ := digitsVal_some_has_digit rest m hdv
            exact ⟨d, hmem d (List.mem_cons_of_mem c hd), hdig⟩
      · by_cases hminus : c = '-'
        · rw [if_neg hplus, if_pos hminus] at h
          cases hdv : digitsVal rest with
          | none => rw [hdv] at h; cases h
          | some m =>
              obtain ⟨d, hd, hdig⟩ := digitsVal_some_has_digit rest m hdv
              exact ⟨d, hmem d (List.mem_cons_of_mem c hd), hdig⟩
        · rw [if_neg hplus, if_neg hminus] at h
          cases hdv : digitsVal (c :: rest) with
          | none => rw [hdv] at h; cases h
          | some m =>
              obtain ⟨d, hd, hdig⟩ := digitsVal_some_has_digit (c :: rest) m hdv
              exact ⟨d, hmem d hd, hdig⟩

/-- A certainly-rejected value of a `str` field fails lax validation. -/
theorem laxStr_eq_none_of_rejected (o : Option Json)
    (h : strFieldRejected o = true) : laxStr o = none := by
  match o with
  | none => rfl
  | some .null => rfl
  | some (.bool _) => rfl
  | some (.num _) => rfl
  | some (.arr _) => rfl
  | some (.obj _) => rfl
  | some (.str _) => exact absurd h (by simp [strFieldRejected])

/-- A certainly-rejected value of an `int` field fails lax validation. -/
theorem laxInt_eq_none_of_rejected (o : Option Json)
    (h : intFieldRejected o = true) : laxInt o = none := by
  match o with
  | none => rfl
  | some .null => rfl
  | some (.bool _) => rfl
  | some (.arr _) => rfl
  | some (.obj _) => rfl
  | some (.num _) => exact absurd h (by simp [intFieldRejected])
  | some (.str s) =>
      cases hsi : strToInt s with
      | none => simp [laxInt, hsi]
      | some n =>
          obtain ⟨c, hc, hdig⟩ := strToInt_some_has_digit s n hsi
          have hno : s.data.any Char.isDigit = false := by
            simp only [intFieldRejected, Bool.not_eq_true'] at h
            exact h
          rw [List.any_eq_false] at hno
          exact absurd hdig (by simpa using hno c hc)

/-- If the four required fields are present with their declared shapes, user
validation succeeds with exactly those field values. -/
theorem validateUserShow_ok_of_shapes (j : Json) (h : String) (tr r sc : Int)
    (hh : j.getField "handle" = some (.str h))
    (ht : j.getField "tier" = some (.num tr))
    (hr : j.getField "rating" = some (.num r))
    (hs : j.getField "solvedCount" = some (.num sc)) :
    validateUserShow j = .ok ⟨h, tr, r, sc⟩ := by
  unfold validateUserShow
  rw [hh, ht, hr, hs]
  simp only [laxStr, laxInt]

/-- A successful user validation means all four required fields passed the
lax validation of their declared types and were copied verbatim. -/
theorem validateUserShow_ok_inv (j : Json) (u : UserShowResponse)
    (hv : validateUserShow j = .ok u) :
    laxStr (j.getField "handle") = some u.handle ∧
    laxInt (j.getField "tier") = some u.tier ∧
    laxInt (j.getField "rating") = some u.rating ∧
    laxInt (j.getField "solvedCount") = some u.solvedCount := by
  unfold validateUserShow at hv
  split at hv
  · cases hv
    rename_i hh ht hr hs
    exact ⟨hh, ht, hr, hs⟩
  · cases hv

/-- The only failure user validation produces is the shape error. -/
theorem validateUserShow_error_inv (j : Json) (e : Failure)
    (hv : validateUserShow j = .error e) :
    e = ⟨.InvalidResponseShape, "validation error for UserShowResponse"⟩ := by
  unfold validateUserShow at hv
  split at hv
  · cases hv
  · cases hv
    rfl

/-- If any required field fails its lax validation, user validation fails
with the shape error. -/
theorem validateUserShow_error_of_none (j : Json)
    (h : laxStr (j.getField "handle") = none ∨
        laxInt (j.getField "tier") = none ∨
        laxInt (j.getField "rating") = none ∨
        laxInt (j.getField "solvedCount") = none) :
    validateUserShow j =
      .error ⟨.InvalidResponseShape, "validation error for UserShowResponse"⟩ := by
  cases hv : validateUserShow j with
  | ok u =>
      obtain ⟨hh, ht, hr, hs⟩ := validateUserShow_ok_inv j u hv
      rcases h with h | h | h | h
      · rw [h] at hh; cases hh
      · rw [h] at ht; cases ht
      · rw [h] at hr; cases hr
      · rw [h] at hs; cases hs
  | error e =>
      rw [validateUserShow_error_inv j e hv]

/-- Successful element-wise validation preserves length and order: the i-th
validated problem is the validation of the i-th JSON item. -/
theorem validateProblems_ok_spec (js : List Json) :
    ∀ ps : List Problem, validateProblems js = .ok ps →
      ps.length = js.length ∧
      ∀ i (h1 : i < js.length) (h2 : i < ps.length),
        validateProblem (js.get ⟨i, h1⟩) = .ok (ps.get ⟨i, h2⟩) := by
  induction js with
  | nil =>
      intro ps h
      cases h
      exact ⟨rfl, fun i h1 _ => absurd h1 (Nat.not_lt_zero i)⟩
  | cons j js ih =>
      intro ps h
      unfold validateProblems at h
      cases hj : validateProblem j with
      | error e => rw [hj] at h; cases h
      | ok p =>
          cases hrest : validateProblems js with
          | error e => rw [hj, hrest] at h; cases h
          | ok ps' =>
              rw [hj, hrest] at h
              cases h
              obtain ⟨hlen, hpt⟩ := ih ps' hrest
              refine ⟨by simpa using hlen, ?_⟩
              intro i h1 h2
              cases i with
              | zero => simpa using hj
              | succ i =>
                  simpa using hpt i (by simpa using h1) (by simpa using h2)

/-- C1: for every query string and every page < 1, the search capability
fails with kind `InvalidArgument` and issues no HTTP request. -/
theorem search_problems_tool_page_lt_one_invalid_argument_no_request
    (st : ServerState) (query : String) (page : Int) (hp : page < 1) :
    (∃ msg, (search_problems_tool st query page).result =
        .error ⟨.InvalidArgument, msg⟩) ∧
    (search_problems_tool st query page).requests = [] := by
  unfold search_problems_tool
  rw [if_pos hp]
  exact ⟨⟨_, rfl⟩, rfl⟩

/-- Witness for C1: at query `"tier:g5..p5 tag:dfs"` and page 0 (with the
client slot empty, so any network attempt would be visible), the tool fails
with `InvalidArgument` and issues no request. -/
theorem search_problems_tool_page_lt_one_invalid_argument_no_request_witness :
    (∃ msg, (search_problems_tool ⟨none⟩ "tier:g5..p5 tag:dfs" 0).result =
        .error ⟨.InvalidArgument, msg⟩) ∧
    (search_problems_tool ⟨none⟩ "tier:g5..p5 tag:dfs" 0).requests = [] :=
  search_problems_tool_page_lt_one_invalid_argument_no_request
    ⟨none⟩ "tier:g5..p5 tag:dfs" 0 (by decide)

/-- C2: with the client slot empty (before activation or after
deactivation), both core operations fail with kind `ClientUnavailable`
and issue no HTTP request. -/
theorem core_ops_inactive_client_unavailable_no_request
    (handle query : String) (page : Int) :
    (get_user_info_core ⟨none⟩ handle).result =
        .error ⟨.ClientUnavailable, "HTTP Client is not available."⟩ ∧
    (get_user_info_core ⟨none⟩ handle).requests = [] ∧
    (search_problems_core ⟨none⟩ query page).result =
        .error ⟨.ClientUnavailable, "HTTP Client is not available."⟩ ∧
    (search_problems_core ⟨none⟩ query page).requests = [] :=
  ⟨rfl, rfl, rfl, rfl⟩

/-- C3: when the transport answers the user-lookup request with status 404,
fetch-user fails with kind `NotFound` and the message contains the handle
as a substring. -/
theorem get_user_info_core_404_not_found_message_names_handle
    (t : Transport) (handle : String) (body : Json)
    (hresp : t (userShowRequest handle) = .response 404 body) :
    ∃ pre post,
      (get_user_info_core ⟨some t⟩ handle).result =
        .error ⟨.NotFound, pre ++ handle ++ post⟩ := by
  refine ⟨"사용자 핸들 \x27", "\x27을(를) 찾을 수 없습니다.", ?_⟩
  simp only [get_user_info_core, hresp]
  norm_num

/-- Witness for C3: a transport that always answers 404 makes fetch-user on
handle `"no_such_user_xyz"` fail with `NotFound` naming that handle. -/
theorem get_user_info_core_404_not_found_message_names_handle_witness :
    ∃ pre post,
      (get_user_info_core ⟨some fun _ => .response 404 .null⟩
          "no_such_user_xyz").result =
        .error ⟨.NotFound, pre ++ "no_such_user_xyz" ++ post⟩ :=
  get_user_info_core_404_not_found_message_names_handle
    (fun _ => .response 404 .null) "no_such_user_xyz" .null rfl

/-- C4: whichever operation is running, a transport answering 429 yields a
`RateLimited` failure and a transport answering 5xx yields a
`RemoteUnavailable` failure, and in both cases the message contains the
retry advice `"잠시 후 다시 시도하세요."` as a substring. -/
theorem http_429_and_5xx_translation
    (t : Transport) (s : Nat) (body : Json) (handle query : String) (page : Int)
    (hresp : ∀ req, t req = .response s body) :
    (s = 429 →
      (∃ pre post, (get_user_info_core ⟨some t⟩ handle).result =
          .error ⟨.RateLimited, pre ++ "잠시 후 다시 시도하세요." ++ post⟩) ∧
      (∃ pre post, (search_problems_core ⟨some t⟩ query page).result =
          .error ⟨.RateLimited, pre ++ "잠시 후 다시 시도하세요." ++ post⟩)) ∧
    (500 ≤ s → s < 600 →
      (∃ pre post, (get_user_info_core ⟨some t⟩ handle).result =
          .error ⟨.RemoteUnavailable, pre ++ "잠시 후 다시 시도하세요." ++ post⟩) ∧
      (∃ pre post, (search_problems_core ⟨some t⟩ query page).result =
          .error ⟨.RemoteUnavailable, pre ++ "잠시 후 다시 시도하세요." ++ post⟩)) := by
  constructor
  · intro h429
    have h1 : ¬(200 ≤ s ∧ s < 300) := by omega
    have h2 : s ≠ 404 := by omega
    constructor
    · refine ⟨"요청이 많습니다(429). ", "", ?_⟩
      simp only [get_user_info_core, hresp]
      rw [if_neg h1, if_neg h2, if_pos h429]
      rfl
    · refine ⟨"요청이 많습니다(429). ", "", ?_⟩
      simp only [search_problems_core, hresp]
      rw [if_neg h1, if_pos h429]
      rfl
  · intro h5 h6
    have h1 : ¬(200 ≤ s ∧ s < 300) := by omega
    have h2 : s ≠ 404 := by omega
    have h3 : s ≠ 429 := by omega
    have h4 : 500 ≤ s ∧ s < 600 := ⟨h5, h6⟩
    constructor
    · refine ⟨"solved.ac 서버 오류가 발생했습니다. ", "", ?_⟩
      simp only [get_user_info_core, hresp]
      rw [if_neg h1, if_neg h2, if_neg h3, if_pos h4]
      rfl
    · refine ⟨"solved.ac 서버 오류가 발생했습니다. ", "", ?_⟩
      simp only [search_problems_core, hresp]
      rw [if_neg h1, if_neg h3, if_pos h4]
      rfl

/-- Witness for C4: a transport answering 429 makes both operations fail
`RateLimited`, and one answering 503 makes both fail `RemoteUnavailable`,
each message carrying the retry advice. -/
theorem http_429_and_5xx_translation_witness :
    ((∃ pre post, (get_user_info_core
          ⟨some fun _ => .response 429 .null⟩ "kyungbaee").result =
        .error ⟨.RateLimited, pre ++ "잠시 후 다시 시도하세요." ++ post⟩) ∧
     (∃ pre post, (search_problems_core
          ⟨some fun _ => .response 429 .null⟩ "tier:g5..p5" 1).result =
        .error ⟨.RateLimited, pre ++ "잠시 후 다시 시도하세요." ++ post⟩)) ∧
    ((∃ pre post, (get_user_info_core
          ⟨some fun _ => .response 503 .null⟩ "kyungbaee").result =
        .error ⟨.RemoteUnavailable, pre ++ "잠시 후 다시 시도하세요." ++ post⟩) ∧
     (∃ pre post, (search_problems_core
          ⟨some fun _ => .response 503 .null⟩ "tier:g5..p5" 1).result =
        .error ⟨.RemoteUnavailable, pre ++ "잠시 후 다시 시도하세요." ++ post⟩)) :=
  ⟨(http_429_and_5xx_translation (fun _ => .response 429 .null) 429 .null
      "kyungbaee" "tier:g5..p5" 1 (fun _ => rfl)).1 rfl,
   (http_429_and_5xx_translation (fun _ => .response 503 .null) 503 .null
      "kyungbaee" "tier:g5..p5" 1 (fun _ => rfl)).2
     (by norm_num) (by norm_num)⟩

/-- C5: search-problems does not special-case 404: any 4xx status other
than 429 — 404 included — yields an `UnexpectedStatus` failure carrying
the original status, and never a `NotFound` failure. -/
theorem search_problems_core_4xx_unexpected_status
    (t : Transport) (query : String) (page : Int) (s : Nat) (body : Json)
    (hresp : t (searchProblemRequest query page) = .response s body)
    (h400 : 400 ≤ s) (h500 : s < 500) (h429 : s ≠ 429) :
    (∃ msg, (search_problems_core ⟨some t⟩ query page).result =
        .error ⟨.UnexpectedStatus s, msg⟩) ∧
    ∀ m, (search_problems_core ⟨some t⟩ query page).result ≠
        .error ⟨.NotFound, m⟩ := by
  have h1 : ¬(200 ≤ s ∧ s < 300) := by omega
  have h4 : ¬(500 ≤ s ∧ s < 600) := by omega
  simp only [search_problems_core, hresp]
  rw [if_neg h1, if_neg h429, if_neg h4]
  exact ⟨⟨_, rfl⟩, fun m hm => by simp at hm⟩

/-- Witness for C5: a transport answering 404 makes search-problems fail
with `UnexpectedStatus 404`, not `NotFound`. -/
theorem search_problems_core_4xx_unexpected_status_witness :
    (∃ msg, (search_problems_core
        ⟨some fun _ => .response 404 .null⟩ "tier:s5..g5 tag:dp" 1).result =
      .error ⟨.UnexpectedStatus 404, msg⟩) ∧
    ∀ m, (search_problems_core
        ⟨some fun _ => .response 404 .null⟩ "tier:s5..g5 tag:dp" 1).result ≠
      .error ⟨.NotFound, m⟩ :=
  search_problems_core_4xx_unexpected_status
    (fun _ => .response 404 .null) "tier:s5..g5 tag:dp" 1 404 .null rfl
    (by norm_num) (by norm_num) (by norm_num)

/-- C6: on a 200 answer, fetch-user returns exactly the decoded required
fields when they all have the declared shapes (extra fields never read,
hence ignored), and fails with `InvalidResponseShape` whenever a required
field is absent or carries a value its declared type certainly rejects
under lax validation — so no partially-populated object is ever returned. -/
theorem get_user_info_core_200_schema_contract
    (t : Transport) (handle : String) (body : Json)
    (hresp : t (userShowRequest handle) = .response 200 body) :
    (∀ h tr r sc,
        body.getField "handle" = some (.str h) →
        body.getField "tier" = some (.num tr) →
        body.getField "rating" = some (.num r) →
        body.getField "solvedCount" = some (.num sc) →
        (get_user_info_core ⟨some t⟩ handle).result = .ok ⟨h, tr, r, sc⟩) ∧
    ((strFieldRejected (body.getField "handle") = true ∨
      intFieldRejected (body.getField "tier") = true ∨
      intFieldRejected (body.getField "rating") = true ∨
      intFieldRejected (body.getField "solvedCount") = true) →
      ∃ msg, (get_user_info_core ⟨some t⟩ handle).result =
          .error ⟨.InvalidResponseShape, msg⟩) := by
  have h200 : 200 ≤ 200 ∧ 200 < 300 := by norm_num
  constructor
  · intro h tr r sc hh ht hr hs
    have hv := validateUserShow_ok_of_shapes body h tr r sc hh ht hr hs
    simp only [get_user_info_core, hresp]
    rw [if_pos h200, hv]
  · intro hbad
    have hnone : laxStr (body.getField "handle") = none ∨
        laxInt (body.getField "tier") = none ∨
        laxInt (body.getField "rating") = none ∨
        laxInt (body.getField "solvedCount") = none := by
      rcases hbad with h | h | h | h
      · exact Or.inl (laxStr_eq_none_of_rejected _ h)
      · exact Or.inr (Or.inl (laxInt_eq_none_of_rejected _ h))
      · exact Or.inr (Or.inr (Or.inl (laxInt_eq_none_of_rejected _ h)))
      · exact Or.inr (Or.inr (Or.inr (laxInt_eq_none_of_rejected _ h)))
    have herr := validateUserShow_error_of_none body hnone
    refine ⟨"validation error for UserShowResponse", ?_⟩
    simp only [get_user_info_core, hresp]
    rw [if_pos h200, herr]

/-- Witness for C6: a body with all required fields plus an unrecognized one
yields exactly the decoded `UserShowResponse`; a body whose `tier` is a
digitless string (and whose other required fields are missing) fails with
`InvalidResponseShape`. -/
theorem get_user_info_core_200_schema_contract_witness :
    (get_user_info_core
        ⟨some fun _ => .response 200 userOkBody⟩ "kyungbaee").result =
      .ok ⟨"kyungbaee", 15, 1500, 200⟩ ∧
    ∃ msg, (get_user_info_core
        ⟨some fun _ => .response 200 userBadBody⟩ "kyungbaee").result =
      .error ⟨.InvalidResponseShape, msg⟩ := by
  constructor
  · exact (get_user_info_core_200_schema_contract
        (fun _ => .response 200 userOkBody) "kyungbaee" userOkBody rfl).1
      "kyungbaee" 15 1500 200 rfl rfl rfl rfl
  · exact (get_user_info_core_200_schema_contract
        (fun _ => .response 200 userBadBody) "kyungbaee" userBadBody rfl).2
      (Or.inr (Or.inl (by decide)))

/-- C7: the prompt builder always returns exactly two messages, the first
assistant-role, the second user-role with a text embedding the literal
request and the decimal rendering of the page; being a total function of
its two arguments it is pure, deterministic and cannot fail. -/
theorem search_workflow_prompt_core_two_messages
    (nr : String) (page : Int) (hp : 1 ≤ page) :
    ∃ sysText,
      search_workflow_prompt_core nr page =
        [⟨"assistant", ⟨"text", sysText⟩⟩,
         ⟨"user", ⟨"text",
            "요청(자연어): " ++ nr ++ "\n페이지: " ++ toString page ++
              "\n규칙: 쿼리를 먼저 제시하고, 이어서 리소스를 호출해 결과를 평가하세요."⟩⟩] :=
  ⟨_, rfl⟩

/-- Witness for C7: at the request of the spec's example and page 1, the two
messages come out with the expected roles and user text. -/
theorem search_workflow_prompt_core_two_messages_witness :
    ∃ sysText,
      search_workflow_prompt_core "실버~골드 사이 DP 5문제" 1 =
        [⟨"assistant", ⟨"text", sysText⟩⟩,
         ⟨"user", ⟨"text",
            "요청(자연어): " ++ "실버~골드 사이 DP 5문제" ++ "\n페이지: " ++ toString (1 : Int) ++
              "\n규칙: 쿼리를 먼저 제시하고, 이어서 리소스를 호출해 결과를 평가하세요."⟩⟩] :=
  search_workflow_prompt_core_two_messages "실버~골드 사이 DP 5문제" 1 (by norm_num)

/-- C8: on a 200 answer whose body decodes to a count and an item list that
validates, search-problems returns that count (not the page size) and the
validated items, of the same length as — and in pointwise correspondence
with — the JSON items array. -/
theorem search_problems_core_200_count_and_items
    (t : Transport) (query : String) (page : Int) (body : Json)
    (c : Int) (js : List Json) (ps : List Problem)
    (hresp : t (searchProblemRequest query page) = .response 200 body)
    (hcount : body.getField "count" = some (.num c))
    (hitems : body.getField "items" = some (.arr js))
    (hparse : validateProblems js = .ok ps) :
    (search_problems_core ⟨some t⟩ query page).result = .ok ⟨c, ps⟩ ∧
    ps.length = js.length ∧
    ∀ i (h1 : i < js.length) (h2 : i < ps.length),
      validateProblem (js.get ⟨i, h1⟩) = .ok (ps.get ⟨i, h2⟩) := by
  have h200 : 200 ≤ 200 ∧ 200 < 300 := by norm_num
  have hv : validateProblemSearch body = .ok ⟨c, ps⟩ := by
    unfold validateProblemSearch
    rw [hcount, hitems]
    simp only [laxInt, hparse]
  obtain ⟨hlen, hpt⟩ := validateProblems_ok_spec js ps hparse
  refine ⟨?_, hlen, hpt⟩
  simp only [search_problems_core, hresp]
  rw [if_pos h200, hv]

/-- Witness for C8: a body with count 2 and two well-formed items yields a
result with count 2 and both items decoded in order. -/
theorem search_problems_core_200_count_and_items_witness :
    (search_problems_core
        ⟨some fun _ => .response 200 searchOkBody⟩ "tier:s5..g5 tag:dp" 1).result =
      .ok ⟨2, [⟨1000, some "A+B", 1, true⟩, ⟨2557, none, 1, false⟩]⟩ ∧
    ([⟨1000, some "A+B", 1, true⟩, ⟨2557, none, 1, false⟩] :
        List Problem).length = [searchItem1, searchItem2].length :=
  ⟨(search_problems_core_200_count_and_items
      (fun _ => .response 200 searchOkBody) "tier:s5..g5 tag:dp" 1
      searchOkBody 2 [searchItem1, searchItem2]
      [⟨1000, some "A+B", 1, true⟩, ⟨2557, none, 1, false⟩]
      rfl rfl rfl rfl).1,
   (search_problems_core_200_count_and_items
      (fun _ => .response 200 searchOkBody) "tier:s5..g5 tag:dp" 1
      searchOkBody 2 [searchItem1, searchItem2]
      [⟨1000, some "A+B", 1, true⟩, ⟨2557, none, 1, false⟩]
      rfl rfl rfl rfl).2.1⟩

/-- C9: the protocol-registered prompt handler and the direct-callable core
builder compute the same function on every input. -/
theorem search_workflow_prompt_eq_core (nr : String) (page : Int) :
    search_workflow_prompt nr page = search_workflow_prompt_core nr page :=
  rfl

/-- C10: the search resource handler ignores its stub path segment: any two
stub values give the same outcome for the same state, query and page. -/
theorem search_problems_resource_stub_independent
    (st : ServerState) (query : String) (page : Int) (stub1 stub2 : String) :
    search_problems st query page stub1 = search_problems st query page stub2 :=
  rfl

end SolvedAc
